import Mathlib

/-!
Verification development for the zaper-canvas-backend query pipeline.

The JavaScript sources (`src/services/llm-service.js`, `src/services/clickhouse-service.js`)
are shallowly embedded below: string manipulation is modelled character-by-character on
`List Char`, the ClickHouse client and the language-model agent are oracles passed as
explicit arguments, and every fallible path returns an explicit result record, mirroring
the `{success, error, data, ...}` shapes of the code.
-/

namespace ZaperCanvas

/-- A single-quote character, used to rebuild the literal error strings of the source. -/
def sq : String := String.singleton (Char.ofNat 39)

/-- JS `\w` word characters: ASCII letters, digits and underscore. -/
def isWordChar (c : Char) : Bool := c.isAlphanum || c = '_'

/-- JS `\s` whitespace (the ASCII part relevant to the embedded strings). -/
def isWsChar (c : Char) : Bool :=
  c = ' ' || c = '\t' || c = '\n' || c = '\r' || c = '\x0b' || c = '\x0c'

/-- `String.prototype.trim`: strip whitespace from both ends. -/
def trimChars (l : List Char) : List Char :=
  ((l.dropWhile isWsChar).reverse.dropWhile isWsChar).reverse

/-- Contiguous-subsequence test, JS `String.prototype.includes`. -/
def containsSeq (needle : List Char) : List Char → Bool
  | [] => needle.isEmpty
  | c :: t => needle.isPrefixOf (c :: t) || containsSeq needle t

/-- JS `toUpperCase` (ASCII). -/
def upChars (l : List Char) : List Char := l.map Char.toUpper

/-- JS `toLowerCase` (ASCII). -/
def lowChars (l : List Char) : List Char := l.map Char.toLower

/-- `hay.includes(needle)` on strings. -/
def strIncludes (hay needle : String) : Bool := containsSeq needle.data hay.data

/-- `query.trim().toUpperCase().startsWith('SELECT')`, the read-only gate used both by
`clickhouse-service.js executeCustomQuery` and by the generator tool. -/
def startsWithSelect (q : String) : Bool :=
  "SELECT".data.isPrefixOf (upChars (trimChars q.data))

/-- Prepend one character to a run decomposition, merging with the first run when the
word-character-ness agrees. -/
def charRunsCons (c : Char) : List (Bool × List Char) → List (Bool × List Char)
  | [] => [(isWordChar c, [c])]
  | (b, r) :: rest =>
      if isWordChar c == b then (b, c :: r) :: rest
      else (isWordChar c, [c]) :: (b, r) :: rest

/-- Maximal runs of equal word-character-ness; the basis for `\b(\w+)\b` tokenisation
and for `\b`-bounded global replacement. -/
def charRuns : List Char → List (Bool × List Char)
  | [] => []
  | c :: cs => charRunsCons c (charRuns cs)

/-- JS `query.match(/\b(\w+)\b/g) || []`: all maximal word-character runs, in order. -/
def wordTokens (s : String) : List String :=
  (charRuns s.data).filterMap (fun p => if p.1 then some ⟨p.2⟩ else none)

/-- JS `query.replace(new RegExp('\\b' + tok + '\\b', 'g'), repl)` for a token made of
word characters: every maximal word-character run equal to `tok` is replaced. -/
def replaceTok (s tok repl : String) : String :=
  ⟨((charRuns s.data).map
      (fun p => if p.1 && ((⟨p.2⟩ : String) == tok) then repl.data else p.2)).flatten⟩

/-! ## Schema catalog (`this.tableSchema` in `llm-service.js`) -/

structure ColumnSchema where
  name : String
  type : String
  description : String
deriving DecidableEq

structure TableSchema where
  name : String
  description : String
  columns : List ColumnSchema
deriving DecidableEq

def dailyWorkerSummary : TableSchema :=
  { name := "daily_worker_summary"
    description := "Daily worker summary containing workforce analytics data"
    columns :=
      [ { name := "id", type := "UInt64", description := "Unique record ID" }
      , { name := "client_id", type := "UInt32", description := "Client ID - optimized for compression" }
      , { name := "staff_id", type := "UInt32", description := "Staff ID - optimized for compression" }
      , { name := "client_name", type := "LowCardinality(String)", description := "Client name with dictionary encoding" }
      , { name := "staff_name", type := "LowCardinality(String)", description := "Staff name with dictionary encoding" }
      , { name := "work_date", type := "Date", description := "Work date - primary time dimension" }
      , { name := "checkin_time", type := "Nullable(DateTime)", description := "Check-in timestamp" }
      , { name := "checkout_time", type := "Nullable(DateTime)", description := "Check-out timestamp" }
      , { name := "checkin_lat", type := "Nullable(Float64)", description := "Check-in latitude coordinate" }
      , { name := "checkin_lng", type := "Nullable(Float64)", description := "Check-in longitude coordinate" }
      , { name := "checkout_lat", type := "Nullable(Float64)", description := "Check-out latitude coordinate" }
      , { name := "checkout_lng", type := "Nullable(Float64)", description := "Check-out longitude coordinate" }
      , { name := "checkin_project_id", type := "Nullable(Int32)", description := "Check-in project ID (NULL or -1 = outside project location)" }
      , { name := "checkout_project_id", type := "Nullable(Int32)", description := "Check-out project ID (NULL or -1 = outside project location)" }
      , { name := "total_work_hours", type := "Decimal(9, 2)", description := "Total work hours with 2 decimal precision" }
      , { name := "total_break_hours", type := "Decimal(9, 2)", description := "Total break hours" }
      , { name := "overtime_hours", type := "Decimal(9, 2)", description := "Overtime hours" }
      , { name := "leave_type", type := "LowCardinality(Nullable(String))", description := "Leave type if absent" }
      , { name := "is_present", type := "UInt8", description := "Attendance flag (1=present, 0=absent)" }
      , { name := "has_overtime", type := "UInt8", description := "Overtime flag (1=has overtime, 0=no overtime)" }
      , { name := "effective_work_hours", type := "Decimal(9, 2)", description := "Net productive hours (total_work_hours - total_break_hours)" }
      , { name := "attendance_score", type := "Float32", description := "Attendance performance score" }
      , { name := "created_at", type := "DateTime", description := "Record creation timestamp" } ] }

def clientProjects : TableSchema :=
  { name := "client_projects"
    description := "Client projects with location and metadata information"
    columns :=
      [ { name := "project_id", type := "UInt32", description := "Unique project identifier" }
      , { name := "client_id", type := "UInt32", description := "Client ID that owns this project" }
      , { name := "project_name", type := "LowCardinality(String)", description := "Short project name for display" }
      , { name := "project_code", type := "LowCardinality(Nullable(String))", description := "Project code/abbreviation for reference" }
      , { name := "project_full_name", type := "String", description := "Complete project name with full details" }
      , { name := "latitude", type := "Nullable(Float64)", description := "Project location latitude coordinate" }
      , { name := "longitude", type := "Nullable(Float64)", description := "Project location longitude coordinate" }
      , { name := "is_active", type := "UInt8", description := "Project active status (1=active, 0=inactive)" }
      , { name := "created_at", type := "DateTime", description := "Record creation timestamp" }
      , { name := "updated_at", type := "DateTime", description := "Last update timestamp" }
      , { name := "has_location", type := "UInt8", description := "Whether project has GPS coordinates (1=has location, 0=no location)" }
      , { name := "location_string", type := "String", description := "Formatted location string for display" } ] }

/-- `Object.values(this.tableSchema)`, in insertion order. -/
def tableSchemaList : List TableSchema := [dailyWorkerSummary, clientProjects]

/-- `this.tableSchema[tableName]`. -/
def lookupTable (n : String) : Option TableSchema :=
  tableSchemaList.find? (fun t => t.name == n)

/-! ## `clickhouse-service.js executeCustomQuery` -/

/-- Rows returned by the store are opaque key-value records. -/
abbrev Row := List (String × String)

/-- The raw ClickHouse client (`this.client.query` plus `result.json()`), an oracle:
`Except.error e` models a thrown driver error with message `e`. -/
abbrev StoreOracle := String → Except String (List Row)

structure ChResult where
  success : Bool
  data : List Row
  error : Option String
  query : String
deriving DecidableEq

/-- `executeCustomQuery(query)` from `clickhouse-service.js` (lines 344-373): the
read-only gate throws before any client call; the catch block turns any thrown error
into a `{success:false, error, data:[]}` result. The second component counts how many
statements were submitted to the data store. -/
def executeCustomQuery (client : StoreOracle) (query : String) : ChResult × Nat :=
  if startsWithSelect query = false then
    ({ success := false, data := [], error := some "Only SELECT queries are allowed",
       query := query }, 0)
  else
    match client query with
    | Except.ok rows =>
        ({ success := true, data := rows, error := none, query := query }, 1)
    | Except.error e =>
        ({ success := false, data := [], error := some e, query := query }, 1)

/-! ## Claims C3 and C10: the executor's read-only gate -/

/-- The claim-side reading of "read-only statement keyword". Only membership of
`"SELECT"` in this list is used by the proofs. -/
def readOnlyKeywords : List String := ["SELECT", "WITH", "SHOW", "DESCRIBE", "EXPLAIN"]

/-- "the whitespace-trimmed text begins, case-insensitively, with `kw`"
(for an upper-case keyword `kw`). -/
def beginsWithKeywordCI (q kw : String) : Bool :=
  kw.data.isPrefixOf (upChars (trimChars q.data))

theorem beginsWithKeywordCI_select (q : String) :
    beginsWithKeywordCI q "SELECT" = startsWithSelect q := rfl

/-- **C3.** Any statement whose trimmed text does not begin with a read-only statement
keyword is returned as a Failure by `executeCustomQuery` without being submitted to the
data store, for every possible store behaviour (i.e. even when upstream stages were
bypassed). -/
theorem executeCustomQuery_rejects_non_read_only (client : StoreOracle) (q : String)
    (h : ∀ kw ∈ readOnlyKeywords, beginsWithKeywordCI q kw = false) :
    (executeCustomQuery client q).1.success = false ∧ (executeCustomQuery client q).2 = 0 := by
  have hs : startsWithSelect q = false := by
    have := h "SELECT" (by simp [readOnlyKeywords])
    simpa [beginsWithKeywordCI_select] using this
  simp [executeCustomQuery, hs]

/-- Witness for C3: a destructive statement is rejected with no store submission. -/
theorem executeCustomQuery_rejects_non_read_only_witness :
    (executeCustomQuery (fun _ => Except.ok []) "DROP TABLE daily_worker_summary").1.success
        = false ∧
    (executeCustomQuery (fun _ => Except.ok []) "DROP TABLE daily_worker_summary").2 = 0 :=
  executeCustomQuery_rejects_non_read_only (fun _ => Except.ok [])
    "DROP TABLE daily_worker_summary" (by decide)

/-- **C10.** `executeCustomQuery` submits a statement to the data store exactly when its
whitespace-trimmed text begins, case-insensitively, with `SELECT`; any other statement
(including read-only ones such as `WITH ...` or `DESCRIBE ...`) yields a Failure result
and zero store submissions. -/
theorem executeCustomQuery_accepts_iff_select (client : StoreOracle) (q : String) :
    ((executeCustomQuery client q).2 = 1 ↔ beginsWithKeywordCI q "SELECT" = true) ∧
    (beginsWithKeywordCI q "SELECT" = false →
      (executeCustomQuery client q).1.success = false ∧
      (executeCustomQuery client q).1.error = some "Only SELECT queries are allowed" ∧
      (executeCustomQuery client q).2 = 0) := by
  rw [beginsWithKeywordCI_select]
  cases hgate : startsWithSelect q
  · simp [executeCustomQuery, hgate]
  · cases hc : client q <;> simp [executeCustomQuery, hgate, hc]

/-- Witness for C10: a `DESCRIBE` statement, read-only but not a `SELECT`, is a Failure
with no store submission. -/
theorem executeCustomQuery_accepts_iff_select_witness :
    (executeCustomQuery (fun _ => Except.ok []) "DESCRIBE TABLE daily_worker_summary").1.success
        = false ∧
    (executeCustomQuery (fun _ => Except.ok [])
        "DESCRIBE TABLE daily_worker_summary").1.error
        = some "Only SELECT queries are allowed" ∧
    (executeCustomQuery (fun _ => Except.ok []) "DESCRIBE TABLE daily_worker_summary").2 = 0 :=
  (executeCustomQuery_accepts_iff_select (fun _ => Except.ok [])
      "DESCRIBE TABLE daily_worker_summary").2 (by decide)

/-! ## `llm-service.js validateQuery` (lines 801-896) -/

def strUpper (s : String) : String := ⟨upChars s.data⟩

def strLower (s : String) : String := ⟨lowChars s.data⟩

/-- The exact chain of `match !== '...'` comparisons of `validateQuery`: SQL keywords,
allowed function names and the two JOIN aliases `p` and `d`. -/
def exemptWords : List String :=
  [ "SELECT", "FROM", "WHERE", "GROUP", "BY", "ORDER", "LIMIT", "OFFSET", "AND",
    "OR", "IS", "NOT", "NULL", "ASC", "DESC", "UNION", "ALL", "SUM", "COUNT",
    "AVG", "MAX", "MIN", "countIf", "sumIf", "avgIf", "maxIf", "minIf",
    "countDistinct", "uniq", "uniqExact", "toWeek", "toDayOfYear", "toWeekOfYear",
    "JOIN", "ON", "INNER", "LEFT", "RIGHT", "AS", "CASE", "WHEN", "THEN", "ELSE",
    "END", "IF", "HAVING", "DISTINCT", "WITH", "CAST", "EXTRACT", "DATE", "TIME",
    "TIMESTAMP", "INTERVAL", "BETWEEN", "IN", "EXISTS", "LIKE", "ILIKE",
    "SUBSTRING", "LENGTH", "LOWER", "UPPER", "TRIM", "ROUND", "FLOOR", "CEIL",
    "ABS", "COALESCE", "NULLIF", "toDate", "toDateTime", "formatDateTime",
    "today", "now", "yesterday", "tomorrow", "addDays", "subtractDays",
    "toYYYYMM", "toYear", "toMonth", "toDayOfWeek", "toHour", "toMinute",
    "toUInt32", "toInt32", "toUInt64", "toInt64", "toFloat32", "toFloat64",
    "toString", "toDecimal", "toBool", "toStartOfHour", "toStartOfDay",
    "toStartOfWeek", "toStartOfMonth", "toStartOfYear", "dateDiff", "dateAdd",
    "parseDateTime", "unixTimestamp", "addMonths", "addYears", "p", "d" ]

/-- Regex `^\d+$`. -/
def isAllDigits (m : String) : Bool := !m.data.isEmpty && m.data.all Char.isDigit

/-- Regex `^'.*'$`. -/
def isQuotedLit (m : String) : Bool :=
  decide (2 ≤ m.data.length) && (m.data.head? == some (Char.ofNat 39))
    && (m.data.getLast? == some (Char.ofNat 39))

/-- The non-column exclusion tests of the big `else if`: not a keyword/function, not a
table name or alias, not a number, not a quoted string. -/
def suspectAux (validTables : List String) (m : String) : Bool :=
  !(exemptWords.contains m) && !(validTables.contains m) && !(isAllDigits m)
    && !(isQuotedLit m)

/-- `validColumns.find(col => col.toLowerCase().includes(match.toLowerCase()) ||
match.toLowerCase().includes(col.toLowerCase()))`. -/
def similarFind (validColumns : List String) (m : String) : Option String :=
  validColumns.find? (fun col =>
    strIncludes (strLower col) (strLower m) || strIncludes (strLower m) (strLower col))

def colNotFoundMsg (m col : String) : String :=
  "Column " ++ sq ++ m ++ sq ++ " not found. Did you mean " ++ sq ++ col ++ sq ++ "?"

def colNoExistMsg (m tableName : String) : String :=
  "Column " ++ sq ++ m ++ sq ++ " does not exist in table " ++ tableName

inductive ValidationOutcome where
  | valid (usedColumns : List String)
  | tableNotFound (error : String)
  | invalidSuggestion (badIdentifier error suggestion : String)
  | invalidNoSuggestion (badIdentifier error : String) (availableColumns : List String)
deriving DecidableEq

/-- The `for (const match of columnMatches)` loop of `validateQuery`. -/
def validateLoop (validColumns validTables : List String) (tableName query : String) :
    List String → List String → ValidationOutcome
  | [], used => ValidationOutcome.valid used.reverse
  | m :: rest, used =>
    if validColumns.contains m then
      validateLoop validColumns validTables tableName query rest (m :: used)
    else if suspectAux validTables m then
      match similarFind validColumns m with
      | some col =>
          ValidationOutcome.invalidSuggestion m (colNotFoundMsg m col) (replaceTok query m col)
      | none =>
          ValidationOutcome.invalidNoSuggestion m (colNoExistMsg m tableName) validColumns
    else validateLoop validColumns validTables tableName query rest used

/-- Column names of all catalogued tables, in catalog order (the JOIN-mode universe). -/
def joinColumns : List String :=
  (tableSchemaList.map (fun t => t.columns.map ColumnSchema.name)).flatten

def joinTables : List String := tableSchemaList.map TableSchema.name

/-- `validateQuery(query, tableName)` from `llm-service.js`. -/
def validateQuery (query tableName : String) : ValidationOutcome :=
  if strIncludes (strUpper query) "JOIN" then
    validateLoop joinColumns joinTables tableName query (wordTokens query) []
  else
    match lookupTable tableName with
    | none => ValidationOutcome.tableNotFound ("Table " ++ tableName ++ " not found in schema")
    | some t =>
        validateLoop (t.columns.map ColumnSchema.name) [tableName] tableName query
          (wordTokens query) []

/-! ## Claims C5 and C6: validator properties -/

/-- The token (if any) that a validation outcome flags as an unknown column. -/
def ValidationOutcome.flagged : ValidationOutcome → Option String
  | ValidationOutcome.valid _ => none
  | ValidationOutcome.tableNotFound _ => none
  | ValidationOutcome.invalidSuggestion m _ _ => some m
  | ValidationOutcome.invalidNoSuggestion m _ _ => some m

/-- The claim-side "active identifier universe": all catalogued columns when the
statement contains a join keyword, the target table's columns otherwise. -/
def activeUniverse (query tableName : String) : List String :=
  if strIncludes (strUpper query) "JOIN" then joinColumns
  else ((lookupTable tableName).map (fun t => t.columns.map ColumnSchema.name)).getD []

theorem contains_true_of_mem {l : List String} {a : String} (h : a ∈ l) :
    l.contains a = true := List.elem_eq_true_of_mem h

theorem contains_ne_true_of_not_mem {l : List String} {a : String} (h : a ∉ l) :
    ¬ l.contains a = true := fun hc => h (List.mem_of_elem_eq_true hc)

theorem validateLoop_flagged_not_mem
    {V T : List String} {tn q : String} {t : String} :
    ∀ (toks used : List String),
      (validateLoop V T tn q toks used).flagged = some t → t ∉ V := by
  intro toks
  induction toks with
  | nil =>
      intro used h
      simp [validateLoop, ValidationOutcome.flagged] at h
  | cons m rest ih =>
      intro used h
      rw [validateLoop] at h
      by_cases hm : m ∈ V
      · rw [if_pos (contains_true_of_mem hm)] at h
        exact ih _ h
      · rw [if_neg (contains_ne_true_of_not_mem hm)] at h
        by_cases hs : suspectAux T m = true
        · rw [if_pos hs] at h
          cases hfind : similarFind V m with
          | some col =>
              rw [hfind] at h
              simp only [ValidationOutcome.flagged, Option.some.injEq] at h
              exact h ▸ hm
          | none =>
              rw [hfind] at h
              simp only [ValidationOutcome.flagged, Option.some.injEq] at h
              exact h ▸ hm
        · rw [if_neg hs] at h
          exact ih _ h

/-- **C5.** `validateQuery` never flags a token that belongs to the active identifier
universe (the union of all catalogued columns for statements containing a join keyword,
the target table's columns otherwise): no false positives for declared columns. -/
theorem validateQuery_no_false_positive (query tableName t : String)
    (h : t ∈ activeUniverse query tableName) :
    (validateQuery query tableName).flagged ≠ some t := by
  intro hflag
  unfold validateQuery at hflag
  unfold activeUniverse at h
  by_cases hj : strIncludes (strUpper query) "JOIN" = true
  · rw [if_pos hj] at hflag
    rw [if_pos hj] at h
    exact validateLoop_flagged_not_mem _ _ hflag h
  · rw [if_neg hj] at hflag
    rw [if_neg hj] at h
    cases hlt : lookupTable tableName with
    | none =>
        rw [hlt] at hflag
        exact absurd hflag (by simp [ValidationOutcome.flagged])
    | some ts =>
        rw [hlt] at hflag
        rw [hlt] at h
        exact validateLoop_flagged_not_mem _ _ hflag h

/-- Witness for C5: the declared column `staff_name` is never flagged. -/
theorem validateQuery_no_false_positive_witness :
    (validateQuery "SELECT staff_name FROM daily_worker_summary"
        "daily_worker_summary").flagged ≠ some "staff_name" :=
  validateQuery_no_false_positive "SELECT staff_name FROM daily_worker_summary"
    "daily_worker_summary" "staff_name" (by decide)

/-- A token is suspect when it is neither a declared column of the active universe nor
exempted by the keyword/table/number/quoted-literal tests. -/
def isSuspectToken (validColumns validTables : List String) (m : String) : Bool :=
  !(validColumns.contains m) && suspectAux validTables m

/-- The identifier universe and table list that `validateQuery` works with, `none` when
the target table is uncatalogued and the statement has no join keyword. -/
def activeContext (query tableName : String) : Option (List String × List String) :=
  if strIncludes (strUpper query) "JOIN" then some (joinColumns, joinTables)
  else (lookupTable tableName).map (fun t => (t.columns.map ColumnSchema.name, [tableName]))

theorem validateLoop_first_suspect
    {V T : List String} {tn q : String} {t : String} :
    ∀ (toks used : List String),
      toks.find? (isSuspectToken V T) = some t →
      validateLoop V T tn q toks used =
        (match similarFind V t with
          | some col =>
              ValidationOutcome.invalidSuggestion t (colNotFoundMsg t col) (replaceTok q t col)
          | none =>
              ValidationOutcome.invalidNoSuggestion t (colNoExistMsg t tn) V) := by
  intro toks
  induction toks with
  | nil => intro used h; simp [List.find?] at h
  | cons m rest ih =>
      intro used h
      by_cases hp : isSuspectToken V T m = true
      · rw [List.find?_cons_of_pos _ hp, Option.some.injEq] at h
        subst h
        have hdec : m ∉ V ∧ suspectAux T m = true := by
          simpa [isSuspectToken] using hp
        rw [validateLoop, if_neg (contains_ne_true_of_not_mem hdec.1), if_pos hdec.2]
      · rw [List.find?_cons_of_neg _ hp] at h
        have hdec : m ∉ V → suspectAux T m = false := by
          simpa [isSuspectToken] using hp
        by_cases hm : m ∈ V
        · rw [validateLoop, if_pos (contains_true_of_mem hm)]
          exact ih (m :: used) h
        · rw [validateLoop, if_neg (contains_ne_true_of_not_mem hm),
            if_neg (by simp [hdec hm])]
          exact ih used h

/-- **C6.** On the first suspect token `t` of a statement, `validateQuery` returns
`Invalid`: with a suggested rewrite replacing every occurrence of `t` by the first
universe column matching it by case-insensitive substring containment in either
direction when one exists, and with the full identifier universe attached otherwise. -/
theorem validateQuery_first_suspect (query tableName t : String)
    (V T : List String)
    (hctx : activeContext query tableName = some (V, T))
    (hfind : (wordTokens query).find? (isSuspectToken V T) = some t) :
    (∀ col, similarFind V t = some col →
        validateQuery query tableName =
          ValidationOutcome.invalidSuggestion t (colNotFoundMsg t col)
            (replaceTok query t col)) ∧
    (similarFind V t = none →
        validateQuery query tableName =
          ValidationOutcome.invalidNoSuggestion t (colNoExistMsg t tableName) V) := by
  have hloop :
      validateQuery query tableName =
        (match similarFind V t with
          | some col =>
              ValidationOutcome.invalidSuggestion t (colNotFoundMsg t col)
                (replaceTok query t col)
          | none =>
              ValidationOutcome.invalidNoSuggestion t (colNoExistMsg t tableName) V) := by
    unfold validateQuery
    unfold activeContext at hctx
    by_cases hj : strIncludes (strUpper query) "JOIN" = true
    · rw [if_pos hj]
      rw [if_pos hj, Option.some.injEq] at hctx
      have hV : joinColumns = V := congrArg Prod.fst hctx
      have hT : joinTables = T := congrArg Prod.snd hctx
      rw [hV, hT]
      exact validateLoop_first_suspect _ _ hfind
    · rw [if_neg hj]
      rw [if_neg hj] at hctx
      cases hlt : lookupTable tableName with
      | none => rw [hlt] at hctx; simp at hctx
      | some ts =>
          rw [hlt] at hctx
          have hctx2 : (ts.columns.map ColumnSchema.name, [tableName]) = (V, T) :=
            Option.some.inj hctx
          have hV : ts.columns.map ColumnSchema.name = V := congrArg Prod.fst hctx2
          have hT : [tableName] = T := congrArg Prod.snd hctx2
          subst hV
          subst hT
          exact validateLoop_first_suspect _ _ hfind
  refine ⟨?_, ?_⟩
  · intro col hcol; rw [hloop, hcol]
  · intro hnone; rw [hloop, hnone]

/-- Witness for C6: `staff` is the first suspect token of the statement, fuzzy-matches
the declared column `staff_id`, and the suggested rewrite substitutes it everywhere. -/
theorem validateQuery_first_suspect_witness :
    validateQuery "SELECT staff FROM daily_worker_summary" "daily_worker_summary" =
      ValidationOutcome.invalidSuggestion "staff" (colNotFoundMsg "staff" "staff_id")
        "SELECT staff_id FROM daily_worker_summary" := by
  have h := (validateQuery_first_suspect "SELECT staff FROM daily_worker_summary"
      "daily_worker_summary" "staff"
      (dailyWorkerSummary.columns.map ColumnSchema.name) ["daily_worker_summary"]
      (by decide) (by decide)).1 "staff_id" (by decide)
  rw [h]
  have : replaceTok "SELECT staff FROM daily_worker_summary" "staff" "staff_id" =
      "SELECT staff_id FROM daily_worker_summary" := by decide
  rw [this]

/-! ## Auxiliary facts: suggestions produced by the validator are never empty -/

theorem charRunsCons_ne_nil (c : Char) (runs : List (Bool × List Char)) :
    charRunsCons c runs ≠ [] := by
  cases runs with
  | nil => simp [charRunsCons]
  | cons p rest =>
      obtain ⟨b, r⟩ := p
      rw [charRunsCons]
      by_cases hb : (isWordChar c == b) = true
      · rw [if_pos hb]; simp
      · rw [if_neg hb]; simp

theorem charRuns_ne_nil {l : List Char} (h : l ≠ []) : charRuns l ≠ [] := by
  cases l with
  | nil => cases h rfl
  | cons c cs => rw [charRuns]; exact charRunsCons_ne_nil c (charRuns cs)

theorem charRunsCons_runs_ne_nil (c : Char) {runs : List (Bool × List Char)}
    (hruns : ∀ p ∈ runs, p.2 ≠ []) :
    ∀ p ∈ charRunsCons c runs, p.2 ≠ [] := by
  intro p hp
  cases runs with
  | nil =>
      simp [charRunsCons] at hp
      subst hp; simp
  | cons q rest =>
      obtain ⟨b, r⟩ := q
      rw [charRunsCons] at hp
      by_cases hb : (isWordChar c == b) = true
      · rw [if_pos hb] at hp
        rcases List.mem_cons.mp hp with hp | hp
        · subst hp; simp
        · exact hruns p (List.mem_cons_of_mem _ hp)
      · rw [if_neg hb] at hp
        rcases List.mem_cons.mp hp with hp | hp
        · subst hp; simp
        · exact hruns p hp

theorem charRuns_runs_ne_nil {l : List Char} :
    ∀ p ∈ charRuns l, p.2 ≠ [] := by
  induction l with
  | nil => intro p hp; simp [charRuns] at hp
  | cons c cs ih => rw [charRuns]; exact charRunsCons_runs_ne_nil c ih

theorem mk_ne_empty {l : List Char} (h : l ≠ []) : (⟨l⟩ : String) ≠ "" :=
  fun hc => h (congrArg String.data hc)

theorem replaceTok_ne_empty {s tok repl : String} (hs : s ≠ "") (hr : repl ≠ "") :
    replaceTok s tok repl ≠ "" := by
  have hdata : s.data ≠ [] := fun h => hs (String.ext h)
  have hrdata : repl.data ≠ [] := fun h => hr (String.ext h)
  apply mk_ne_empty
  cases hruns : charRuns s.data with
  | nil => exact absurd hruns (charRuns_ne_nil hdata)
  | cons p ps =>
      intro hflat
      rw [List.map_cons, List.flatten_cons] at hflat
      have hp2 : p.2 ≠ [] := charRuns_runs_ne_nil p (hruns ▸ List.mem_cons_self _ _)
      have hhead := (List.append_eq_nil.mp hflat).1
      by_cases hcond : p.1 && ((⟨p.2⟩ : String) == tok)
      · rw [if_pos hcond] at hhead; exact hrdata hhead
      · rw [if_neg hcond] at hhead; exact hp2 hhead

theorem validateLoop_suggestion_shape
    {V T : List String} {tn q : String} {m e s : String} :
    ∀ (toks used : List String),
      validateLoop V T tn q toks used = ValidationOutcome.invalidSuggestion m e s →
      ∃ col ∈ V, s = replaceTok q m col := by
  intro toks
  induction toks with
  | nil => intro used h; simp [validateLoop] at h
  | cons w rest ih =>
      intro used h
      rw [validateLoop] at h
      by_cases hm : w ∈ V
      · rw [if_pos (contains_true_of_mem hm)] at h
        exact ih _ h
      · rw [if_neg (contains_ne_true_of_not_mem hm)] at h
        by_cases hsus : suspectAux T w = true
        · rw [if_pos hsus] at h
          cases hfind : similarFind V w with
          | some col =>
              rw [hfind] at h
              simp only [ValidationOutcome.invalidSuggestion.injEq] at h
              refine ⟨col, List.mem_of_find?_eq_some hfind, ?_⟩
              rw [← h.2.2, ← h.1]
          | none =>
              rw [hfind] at h
              simp at h
        · rw [if_neg hsus] at h
          exact ih _ h

theorem validateQuery_suggestion_ne_empty
    {query tableName m e s : String}
    (h : validateQuery query tableName = ValidationOutcome.invalidSuggestion m e s)
    (hq : query ≠ "") : s ≠ "" := by
  unfold validateQuery at h
  by_cases hj : strIncludes (strUpper query) "JOIN" = true
  · rw [if_pos hj] at h
    obtain ⟨col, hcol, hrepl⟩ := validateLoop_suggestion_shape _ _ h
    have hne : ∀ c ∈ joinColumns, c ≠ "" := by decide
    exact hrepl ▸ replaceTok_ne_empty hq (hne col hcol)
  · rw [if_neg hj] at h
    cases hlt : lookupTable tableName with
    | none => rw [hlt] at h; simp at h
    | some ts =>
        rw [hlt] at h
        obtain ⟨col, hcol, hrepl⟩ := validateLoop_suggestion_shape _ _ h
        have hts : ts ∈ tableSchemaList := List.mem_of_find?_eq_some hlt
        have hne : ∀ u ∈ tableSchemaList, ∀ c ∈ u.columns.map ColumnSchema.name,
            c ≠ "" := by decide
        exact hrepl ▸ replaceTok_ne_empty hq (hne ts hts col hcol)

/-! ## `llm-service.js executeGeneratedQuery` (lines 898-955) -/

/-- The record produced by `generateQuery` and consumed by `executeGeneratedQuery`;
`none` models JS `null`. -/
structure QueryGenResult where
  success : Bool
  query : Option String
  error : Option String
  explanation : Option String
  cardType : String
  columns : List String
  tableName : String
deriving DecidableEq

/-- JS falsiness of a nullable string (`null`, `undefined` or `''`). -/
def strFalsy : Option String → Bool
  | none => true
  | some s => s == ""

/-- Result record of `executeGeneratedQuery`; `validationError` models the extra
`validationError` key of the validation-failure return and `metadataRowCount` the
`metadata.rowCount` field of the executed return. -/
structure ExecOutput where
  success : Bool
  data : List Row
  error : Option String
  query : Option String
  explanation : Option String
  cardType : String
  columns : List String
  validationError : Option ValidationOutcome
  metadataRowCount : Option Nat
deriving DecidableEq

/-- The tail of `executeGeneratedQuery` after validation: run
`clickhouseService.executeCustomQuery` on the (possibly substituted) record and package
the result. The third component is the trace of statements handed to the executor. -/
def execStep (client : StoreOracle) (qr : QueryGenResult) :
    ExecOutput × QueryGenResult × List String :=
  let q := qr.query.getD ""
  let r := (executeCustomQuery client q).1
  ({ success := r.success, data := r.data, error := r.error, query := qr.query,
     explanation := qr.explanation, cardType := qr.cardType, columns := qr.columns,
     validationError := none, metadataRowCount := some r.data.length },
   qr, [q])

/-- The early return of `executeGeneratedQuery` when validation fails without a usable
suggestion. -/
def validationFailResult (qr : QueryGenResult) (v : ValidationOutcome) (e : String) :
    ExecOutput × QueryGenResult × List String :=
  ({ success := false, data := [],
     error := some ("Query validation failed: " ++ e),
     query := qr.query, explanation := qr.explanation, cardType := qr.cardType,
     columns := qr.columns, validationError := some v, metadataRowCount := none },
   qr, [])

/-- `executeGeneratedQuery(queryResult)` from `llm-service.js`: guard against an unusable
input record, validate, silently substitute a suggested rewrite into the input record,
execute, or return the validation failure. Returns
`(result, updated input record, executor trace)` — the mutated `queryResult` is passed
back explicitly. -/
def executeGeneratedQuery (client : StoreOracle) (qr : QueryGenResult) :
    ExecOutput × QueryGenResult × List String :=
  if qr.success == false || strFalsy qr.query then
    ({ success := false, data := [], error := some "Invalid query result provided",
       query := qr.query, explanation := qr.explanation, cardType := qr.cardType,
       columns := qr.columns, validationError := none, metadataRowCount := none },
     qr, [])
  else
    match validateQuery (qr.query.getD "") qr.tableName with
    | ValidationOutcome.valid _ => execStep client qr
    | ValidationOutcome.tableNotFound e =>
        validationFailResult qr (ValidationOutcome.tableNotFound e) e
    | ValidationOutcome.invalidSuggestion m e s =>
        if s == "" then
          validationFailResult qr (ValidationOutcome.invalidSuggestion m e s) e
        else execStep client { qr with query := some s }
    | ValidationOutcome.invalidNoSuggestion m e cols =>
        validationFailResult qr (ValidationOutcome.invalidNoSuggestion m e cols) e

/-! ## Claims C4 and C9 -/

/-- **C4.** When validation of a generated query yields `Invalid` with a suggestion, the
pipeline silently substitutes the rewrite and executes exactly once with the substituted
SQL, surfacing no validation error; when it yields `Invalid` without a suggestion the
failure is returned to the caller with no executor call at all. -/
theorem executeGeneratedQuery_validation_recovery (client : StoreOracle)
    (qr : QueryGenResult) (q : String)
    (hsucc : qr.success = true) (hq : qr.query = some q) (hne : q ≠ "") :
    (∀ m e s, validateQuery q qr.tableName = ValidationOutcome.invalidSuggestion m e s →
       (executeGeneratedQuery client qr).2.2 = [s] ∧
       (executeGeneratedQuery client qr).1.validationError = none ∧
       (executeGeneratedQuery client qr).1.query = some s ∧
       (executeGeneratedQuery client qr).1.error = (executeCustomQuery client s).1.error) ∧
    (∀ m e cols,
       validateQuery q qr.tableName = ValidationOutcome.invalidNoSuggestion m e cols →
       (executeGeneratedQuery client qr).2.2 = [] ∧
       (executeGeneratedQuery client qr).1.success = false ∧
       (executeGeneratedQuery client qr).1.error =
         some ("Query validation failed: " ++ e) ∧
       (executeGeneratedQuery client qr).1.validationError =
         some (ValidationOutcome.invalidNoSuggestion m e cols)) := by
  have hguard : (qr.success == false || strFalsy qr.query) = false := by
    rw [hsucc, hq]
    simp [strFalsy, hne]
  have hgetd : qr.query.getD "" = q := by rw [hq]; rfl
  constructor
  · intro m e s hval
    have hs : s ≠ "" := validateQuery_suggestion_ne_empty hval hne
    have hsb : (s == "") = false := by simp [hs]
    unfold executeGeneratedQuery
    rw [hguard, hgetd, hval]
    simp [hsb, execStep]
  · intro m e cols hval
    unfold executeGeneratedQuery
    rw [hguard, hgetd, hval]
    simp [validationFailResult]

def sampleQR : QueryGenResult :=
  { success := true, query := some "SELECT staff FROM daily_worker_summary",
    error := none, explanation := some "sample", cardType := "table",
    columns := ["staff"], tableName := "daily_worker_summary" }

/-- Witness for C4: a misspelled column is silently substituted and executed once. -/
theorem executeGeneratedQuery_validation_recovery_witness :
    (executeGeneratedQuery (fun _ => Except.ok []) sampleQR).2.2 =
      ["SELECT staff_id FROM daily_worker_summary"] ∧
    (executeGeneratedQuery (fun _ => Except.ok []) sampleQR).1.validationError = none := by
  have h := (executeGeneratedQuery_validation_recovery (fun _ => Except.ok []) sampleQR
      "SELECT staff FROM daily_worker_summary" (by decide) (by decide) (by decide)).1
      "staff" (colNotFoundMsg "staff" "staff_id")
      "SELECT staff_id FROM daily_worker_summary" (by decide)
  exact ⟨h.1, h.2.1⟩

/-- **C9.** `executeGeneratedQuery` mutates its input record: under a validation
suggestion the record's `query` field is overwritten with the substituted SQL before
execution and the returned record carries the substituted text; every other field of the
input record (`explanation`, `cardType`, `columns`, `tableName`, and `success`) is
unchanged on every path. -/
theorem executeGeneratedQuery_frame (client : StoreOracle) (qr : QueryGenResult) :
    ((executeGeneratedQuery client qr).2.1.explanation = qr.explanation ∧
     (executeGeneratedQuery client qr).2.1.cardType = qr.cardType ∧
     (executeGeneratedQuery client qr).2.1.columns = qr.columns ∧
     (executeGeneratedQuery client qr).2.1.tableName = qr.tableName ∧
     (executeGeneratedQuery client qr).2.1.success = qr.success) ∧
    (∀ q m e s, qr.success = true → qr.query = some q → q ≠ "" →
       validateQuery q qr.tableName = ValidationOutcome.invalidSuggestion m e s →
       (executeGeneratedQuery client qr).2.1.query = some s ∧
       (executeGeneratedQuery client qr).1.query = some s ∧
       (executeGeneratedQuery client qr).2.2 = [s]) := by
  constructor
  · unfold executeGeneratedQuery
    by_cases hguard : (qr.success == false || strFalsy qr.query) = true
    · rw [if_pos hguard]
      exact ⟨rfl, rfl, rfl, rfl, rfl⟩
    · rw [if_neg hguard]
      cases hval : validateQuery (qr.query.getD "") qr.tableName with
      | valid _ => simp [execStep]
      | tableNotFound e => simp [validationFailResult]
      | invalidSuggestion m e s =>
          by_cases hs : (s == "") = true
          · simp [hs, validationFailResult]
          · simp [hs, validationFailResult, execStep]
      | invalidNoSuggestion m e cols => simp [validationFailResult]
  · intro q m e s hsucc hq hne hval
    have hguard : (qr.success == false || strFalsy qr.query) = false := by
      rw [hsucc, hq]; simp [strFalsy, hne]
    have hgetd : qr.query.getD "" = q := by rw [hq]; rfl
    have hs : s ≠ "" := validateQuery_suggestion_ne_empty hval hne
    have hsb : (s == "") = false := by simp [hs]
    unfold executeGeneratedQuery
    rw [hguard, hgetd, hval]
    simp [hsb, execStep]

/-- Witness for C9: the caller's record comes back with the substituted query. -/
theorem executeGeneratedQuery_frame_witness :
    (executeGeneratedQuery (fun _ => Except.ok []) sampleQR).2.1.query =
      some "SELECT staff_id FROM daily_worker_summary" ∧
    (executeGeneratedQuery (fun _ => Except.ok []) sampleQR).2.1.explanation =
      sampleQR.explanation := by
  have h := executeGeneratedQuery_frame (fun _ => Except.ok []) sampleQR
  have h2 := h.2 "SELECT staff FROM daily_worker_summary" "staff"
      (colNotFoundMsg "staff" "staff_id") "SELECT staff_id FROM daily_worker_summary"
      (by decide) (by decide) (by decide) (by decide)
  exact ⟨h2.1, h.1.1⟩

/-! ## The generator tool (`createQueryGeneratorTool`, lines 645-675) and claim C7 -/

/-- Parsed arguments of a `generate_clickhouse_query` tool call. -/
structure ToolPayload where
  query : String
  explanation : String
  cardType : String
  columns : List String
deriving DecidableEq

/-- Successful output of the tool's `execute` step: the input fields plus `validated`. -/
structure ToolOutput where
  query : String
  explanation : String
  cardType : String
  columns : List String
  validated : Bool
deriving DecidableEq

/-- The `execute` handler of `createQueryGeneratorTool`: throws unless the query is a
SELECT statement whose lower-cased text contains `daily_worker_summary`. -/
def toolExecute (input : ToolPayload) : Except String ToolOutput :=
  if startsWithSelect input.query = false then
    Except.error "Only SELECT queries are allowed"
  else if strIncludes (strLower input.query) "daily_worker_summary" = false then
    Except.error "Query must use the daily_worker_summary table"
  else
    Except.ok { query := input.query, explanation := input.explanation,
                cardType := input.cardType, columns := input.columns, validated := true }

/-- "the payload's query starts with a read-only statement keyword". -/
def startsWithReadOnlyKeyword (q : String) : Bool :=
  readOnlyKeywords.any (fun kw => beginsWithKeywordCI q kw)

/-- "references the given table by name" (case-insensitive containment). -/
def referencesTable (q tableName : String) : Bool :=
  strIncludes (strLower q) (strLower tableName)

/-- Claim C7 as stated: the tool's execution step accepts a payload exactly when its
query starts with a read-only statement keyword and references the request's target
table by name. -/
def claimC7 : Prop :=
  ∀ (input : ToolPayload) (targetTable : String),
    (toolExecute input).isOk =
      (startsWithReadOnlyKeyword input.query && referencesTable input.query targetTable)

/-- A SELECT over the catalogued table `client_projects`. -/
def projectsPayload : ToolPayload :=
  { query := "SELECT project_name FROM client_projects"
    explanation := "projects"
    cardType := "table"
    columns := ["project_name"] }

/-- Counterexample to C7: with target table `client_projects`, the payload query
`SELECT project_name FROM client_projects` starts with a read-only keyword and
references the target table by name, yet the tool rejects it — the check is against the
hard-coded name `daily_worker_summary`, not the request's target table. -/
theorem toolExecute_counterexample : ¬ claimC7 := by
  intro h
  have h2 := h projectsPayload "client_projects"
  exact absurd h2 (by decide)

/-- **C7 (amended).** The tool's execution step fails exactly when the payload's query
does not begin (trimmed, case-insensitively) with `SELECT` or does not contain the fixed
table name `daily_worker_summary` (case-insensitively) — irrespective of the request's
target table; payloads passing both checks are returned with all fields unchanged and a
`validated` flag added. -/
theorem toolExecute_checks (input : ToolPayload) :
    ((toolExecute input).isOk =
      (startsWithSelect input.query &&
        strIncludes (strLower input.query) "daily_worker_summary")) ∧
    (∀ out, toolExecute input = Except.ok out →
      out.query = input.query ∧ out.explanation = input.explanation ∧
      out.cardType = input.cardType ∧ out.columns = input.columns ∧
      out.validated = true) := by
  constructor
  · cases hsel : startsWithSelect input.query
    · simp [toolExecute, hsel, Except.isOk, Except.toBool]
    · cases hinc : strIncludes (strLower input.query) "daily_worker_summary"
      · simp [toolExecute, hsel, hinc, Except.isOk, Except.toBool]
      · simp [toolExecute, hsel, hinc, Except.isOk, Except.toBool]
  · intro out hout
    unfold toolExecute at hout
    by_cases hsel : startsWithSelect input.query = false
    · rw [if_pos hsel] at hout; cases hout
    · rw [if_neg hsel] at hout
      by_cases hinc : strIncludes (strLower input.query) "daily_worker_summary" = false
      · rw [if_pos hinc] at hout; cases hout
      · rw [if_neg hinc] at hout
        have := Except.ok.inj hout
        rw [← this]
        exact ⟨rfl, rfl, rfl, rfl, rfl⟩

/-- A conforming payload and the tool output it yields. -/
def staffPayload : ToolPayload :=
  { query := "SELECT staff_name FROM daily_worker_summary"
    explanation := "staff"
    cardType := "kpi"
    columns := ["staff_name"] }

def staffToolOutput : ToolOutput :=
  { query := "SELECT staff_name FROM daily_worker_summary"
    explanation := "staff"
    cardType := "kpi"
    columns := ["staff_name"]
    validated := true }

/-- Witness for the amended C7: a conforming payload is accepted unchanged. -/
theorem toolExecute_checks_witness :
    (toolExecute staffPayload).isOk = true ∧
    staffToolOutput.query = staffPayload.query := by
  have h := toolExecute_checks staffPayload
  have h2 := h.2 staffToolOutput rfl
  exact ⟨by rw [h.1]; decide, h2.1⟩

/-! ## `generateQuery` (lines 677-799) and its fallback path; claim C8 -/

/-- Lookahead `(?=\n\n|$|Explanation|;)` of the SELECT-extraction regex (the `/i` flag
makes the literal case-insensitive). -/
def selectStopAt (r : List Char) : Bool :=
  r.isEmpty || "\n\n".data.isPrefixOf r ||
    "explanation".data.isPrefixOf (lowChars r) || (r.head? == some ';')

/-- Lazy body of `/SELECT[\s\S]*?(?=...)/`: the shortest prefix whose residue satisfies
the lookahead (total, because the `$` alternative holds at the end of input). -/
def selectTail : List Char → List Char
  | [] => []
  | c :: r2 => if selectStopAt (c :: r2) then [] else c :: selectTail r2

/-- First match of `/SELECT[\s\S]*?(?=\n\n|$|Explanation|;)/i`: scan for the leftmost
case-insensitive `SELECT`, then extend lazily to the first stop position. -/
def findSelectMatch : List Char → Option (List Char)
  | [] => none
  | c :: t =>
      if "select".data.isPrefixOf (lowChars (c :: t)) then
        some (List.take 6 (c :: t) ++ selectTail (List.drop 6 (c :: t)))
      else findSelectMatch t

/-- Lazy search for the closing fence: the content of `([\s\S]*?)` before `\n?```​`. -/
def fenceClose : List Char → Option (List Char)
  | [] => none
  | c :: t =>
      if "```".data.isPrefixOf (c :: t) then some []
      else if c = '\n' && "```".data.isPrefixOf t then some []
      else (fenceClose t).map (fun g => c :: g)

/-- After an opening fence: `(?:sql)?\s*\n?` (greedy, and harmless to take maximally
since none of these characters can begin the closing fence), then the lazy group. -/
def fenceBody (r : List Char) : Option (List Char) :=
  let r1 := if "sql".data.isPrefixOf r then r.drop 3 else r
  fenceClose (r1.dropWhile isWsChar)

/-- First match of `/```(?:sql)?\s*\n?([\s\S]*?)\n?```​/`, returning group 1. -/
def findFencedBlock : List Char → Option (List Char)
  | [] => none
  | c :: t =>
      if "```".data.isPrefixOf (c :: t) then
        match fenceBody (List.drop 3 (c :: t)) with
        | some g => some g
        | none => findFencedBlock t
      else findFencedBlock t

/-- Regex `/;+$/` removal. -/
def stripTrailingSemis (l : List Char) : List Char :=
  (l.reverse.dropWhile (fun c => c = ';')).reverse

/-- Regex replacement `/\s+/g → ' '`: collapse each whitespace run to a single space. -/
def collapseWs : List Char → List Char
  | [] => []
  | c :: t =>
      if isWsChar c then
        match collapseWs t with
        | ' ' :: r => ' ' :: r
        | r => ' ' :: r
      else c :: collapseWs t

/-- `.replace(/;+$/, '').replace(/\s+/g, ' ').trim()`. -/
def cleanupQuery (s : String) : String :=
  ⟨trimChars (collapseWs (stripTrailingSemis s.data))⟩

def defaultFallbackQuery : String := "SELECT * FROM daily_worker_summary LIMIT 10"

/-- The fallback branch of `generateQuery` (lines 756-785), reached when the agent run
produced no usable tool call: `result.finalOutput || default`, fenced-block extraction,
SELECT-statement extraction, cleanup. -/
def fallbackQuery (finalOutput : Option String) : String :=
  let e0 := match finalOutput with
            | none => defaultFallbackQuery
            | some s => if s = "" then defaultFallbackQuery else s
  let e1 := match findFencedBlock e0.data with
            | some g => (⟨trimChars g⟩ : String)
            | none =>
                match findSelectMatch e0.data with
                | some m => (⟨trimChars m⟩ : String)
                | none => e0
  cleanupQuery e1

/-- Outcome of `run(this.queryAgent, prompt)` as observed by `generateQuery`: the parsed
arguments of the first `generate_clickhouse_query` tool call found in the reply, if any,
and the agent's free-text `finalOutput` (absent and empty are `none` and `some ""`). -/
structure AgentRunResult where
  toolArguments : Option ToolPayload
  finalOutput : Option String
deriving DecidableEq

def validCardTypes : List String := ["table", "bar", "line", "pie", "map", "kpi"]

/-- The catch-block result of `generateQuery`. -/
def genFailure (msg cardType tableName : String) : QueryGenResult :=
  { success := false, query := none, error := some msg, explanation := none,
    cardType := cardType, columns := [], tableName := tableName }

/-- `generateQuery(userMessage, cardType, tableName)`. The second component counts model
invocations: the single `run` call, reached only after the input validations pass. -/
def generateQuery (agent : AgentRunResult) (userMessage cardType tableName : String) :
    QueryGenResult × Nat :=
  if userMessage == "" || cardType == "" then
    (genFailure "User message and card type are required" cardType tableName, 0)
  else if validCardTypes.contains cardType = false then
    (genFailure "Invalid card type. Must be one of: table, bar, line, pie, map, kpi"
      cardType tableName, 0)
  else
    match lookupTable tableName with
    | none =>
        (genFailure ("Table " ++ tableName ++ " not found in schema") cardType tableName, 0)
    | some _ =>
        match agent.toolArguments with
        | some p =>
            ({ success := true, query := some p.query, error := none,
               explanation := some p.explanation, cardType := p.cardType,
               columns := p.columns, tableName := tableName }, 1)
        | none =>
            ({ success := true, query := some (fallbackQuery agent.finalOutput),
               error := none, explanation := some "Generated query from LLM response",
               cardType := cardType, columns := ["*"], tableName := tableName }, 1)

/-- Claim C8 as stated: the fallback path always returns success with a non-empty
query. -/
def claimC8 : Prop :=
  ∀ (agent : AgentRunResult) (userMessage cardType tableName : String),
    userMessage ≠ "" → cardType ∈ validCardTypes → (lookupTable tableName).isSome →
    agent.toolArguments = none →
    (generateQuery agent userMessage cardType tableName).1.success = true ∧
    (generateQuery agent userMessage cardType tableName).1.query ≠ some ""

/-- An agent reply consisting solely of an empty fenced code block. -/
def emptyFenceAgent : AgentRunResult :=
  { toolArguments := none, finalOutput := some "``````" }

/-- Counterexample to C8: when the model's free text is an empty fenced code block
(`\x60\x60\x60\x60\x60\x60`), the extracted group is empty and the fallback returns
success with an empty query. -/
theorem generateQuery_fallback_counterexample : ¬ claimC8 := by
  intro h
  have h2 := (h emptyFenceAgent "show hours" "table" "daily_worker_summary"
      (by decide) (by decide) (by decide) rfl).2
  exact h2 (by decide)

/-- **C8 (amended).** The fallback path never produces a failure: with valid inputs and
no usable tool call, `generateQuery` returns success; when the model's free text is
empty or absent, the query is the fixed default
`SELECT * FROM daily_worker_summary LIMIT 10` with the single wildcard column marker.
(The returned query can, however, be empty when the free text is an empty fenced code
block.) -/
theorem generateQuery_fallback (agent : AgentRunResult)
    (userMessage cardType tableName : String)
    (hm : userMessage ≠ "") (hc : cardType ∈ validCardTypes)
    (ht : (lookupTable tableName).isSome) (hagent : agent.toolArguments = none) :
    (generateQuery agent userMessage cardType tableName).1.success = true ∧
    ((agent.finalOutput = none ∨ agent.finalOutput = some "") →
      (generateQuery agent userMessage cardType tableName).1.query =
        some defaultFallbackQuery ∧
      (generateQuery agent userMessage cardType tableName).1.columns = ["*"]) := by
  have hcne : cardType ≠ "" := by
    intro hcc
    subst hcc
    simp [validCardTypes] at hc
  have hguard : (userMessage == "" || cardType == "") = false := by
    simp [hm, hcne]
  have hcont : validCardTypes.contains cardType = true := contains_true_of_mem hc
  obtain ⟨ts, hts⟩ := Option.isSome_iff_exists.mp ht
  unfold generateQuery
  rw [hguard, hcont, hts, hagent]
  refine ⟨rfl, ?_⟩
  intro hfo
  have hdef : fallbackQuery agent.finalOutput = defaultFallbackQuery := by
    rcases hfo with hfo | hfo <;> rw [hfo] <;> decide
  rw [hdef]
  exact ⟨rfl, rfl⟩

/-- Witness for the amended C8: absent free text yields the fixed default query. -/
theorem generateQuery_fallback_witness :
    (generateQuery { toolArguments := none, finalOutput := none } "show total hours"
        "table" "daily_worker_summary").1.success = true ∧
    (generateQuery { toolArguments := none, finalOutput := none } "show total hours"
        "table" "daily_worker_summary").1.query = some defaultFallbackQuery := by
  have h := generateQuery_fallback { toolArguments := none, finalOutput := none }
      "show total hours" "table" "daily_worker_summary"
      (by decide) (by decide) (by decide) rfl
  exact ⟨h.1, (h.2 (Or.inl rfl)).1⟩

/-! ## `processUserRequest` (lines 957-983); claims C1 and C2 -/

/-- The two shapes `processUserRequest` can return: the generation-failure record
passed through, or the execution result. -/
inductive PipelineResult where
  | genFail (r : QueryGenResult)
  | execResult (r : ExecOutput)
deriving DecidableEq

def PipelineResult.isFailure : PipelineResult → Bool
  | PipelineResult.genFail r => !r.success
  | PipelineResult.execResult r => !r.success

def PipelineResult.errorOf : PipelineResult → Option String
  | PipelineResult.genFail r => r.error
  | PipelineResult.execResult r => r.error

structure PipelineRun where
  result : PipelineResult
  llmCalls : Nat
  execTrace : List String
deriving DecidableEq

/-- `processUserRequest(userMessage, cardType, tableName)`: generate, then execute; a
generation failure is returned to the caller unchanged. `llmCalls` counts model
invocations over the whole pipeline, `execTrace` the statements handed to the
executor. -/
def processUserRequest (agent : AgentRunResult) (client : StoreOracle)
    (userMessage cardType tableName : String) : PipelineRun :=
  let g := generateQuery agent userMessage cardType tableName
  if g.1.success = false then
    { result := PipelineResult.genFail g.1, llmCalls := g.2, execTrace := [] }
  else
    let e := executeGeneratedQuery client g.1
    { result := PipelineResult.execResult e.1, llmCalls := g.2, execTrace := e.2.2 }

/-- Claim C1 as stated: a run whose generated SQL failed at execution performs one
repair pass — a second model invocation with the store's error text and a single
re-execution — before any terminal failure; observably, a failed run that executed at
least one statement shows two model calls and two executor calls. -/
def claimC1 : Prop :=
  ∀ (agent : AgentRunResult) (client : StoreOracle) (msg ct tn : String),
    (processUserRequest agent client msg ct tn).result.isFailure = true →
    (processUserRequest agent client msg ct tn).execTrace ≠ [] →
    (processUserRequest agent client msg ct tn).llmCalls = 2 ∧
    (processUserRequest agent client msg ct tn).execTrace.length = 2

/-- A store whose every query fails with a fixed driver error. -/
def failingStore : StoreOracle := fun _ => Except.error "Unknown identifier WEEK"

/-- An agent run that produced a structured tool call for a valid staff query. -/
def staffAgent : AgentRunResult :=
  { toolArguments := some staffPayload, finalOutput := none }

/-- Counterexample to C1: a pipeline whose (validated) SQL fails at the store returns
the failure after one model call and one executor call — no corrector exists in
`processUserRequest` and no second execution happens. -/
theorem processUserRequest_counterexample : ¬ claimC1 := by
  intro h
  have h2 := h staffAgent failingStore "show staff names" "table" "daily_worker_summary"
      (by decide) (by decide)
  exact absurd h2.1 (by decide)

/-- **C1 (amended).** There is no automated repair pass: when the generated SQL passes
validation and its execution fails, `processUserRequest` returns the failure directly to
the caller, carrying the store's literal error text, after exactly one model invocation
and exactly one executor call. -/
theorem processUserRequest_execution_failure (agent : AgentRunResult)
    (client : StoreOracle) (msg ct tn : String) (p : ToolPayload) (u : List String)
    (e : String)
    (hm : msg ≠ "") (hc : ct ∈ validCardTypes) (ht : (lookupTable tn).isSome)
    (hagent : agent.toolArguments = some p) (hqne : p.query ≠ "")
    (hval : validateQuery p.query tn = ValidationOutcome.valid u)
    (hsel : startsWithSelect p.query = true)
    (hfail : client p.query = Except.error e) :
    (processUserRequest agent client msg ct tn).result.isFailure = true ∧
    (processUserRequest agent client msg ct tn).result.errorOf = some e ∧
    (processUserRequest agent client msg ct tn).llmCalls = 1 ∧
    (processUserRequest agent client msg ct tn).execTrace = [p.query] := by
  have hcne : ct ≠ "" := by
    intro hcc; subst hcc; simp [validCardTypes] at hc
  have hguard : (msg == "" || ct == "") = false := by simp [hm, hcne]
  have hcont : validCardTypes.contains ct = true := contains_true_of_mem hc
  obtain ⟨ts, hts⟩ := Option.isSome_iff_exists.mp ht
  have hgen : generateQuery agent msg ct tn =
      ({ success := true, query := some p.query, error := none,
         explanation := some p.explanation, cardType := p.cardType,
         columns := p.columns, tableName := tn }, 1) := by
    unfold generateQuery
    rw [hguard, hcont, hts, hagent]
    rfl
  have hqb : (p.query == "") = false := by simp [hqne]
  unfold processUserRequest
  rw [hgen]
  simp [executeGeneratedQuery, execStep, executeCustomQuery, strFalsy, hval, hsel,
    hfail, hqb, PipelineResult.isFailure, PipelineResult.errorOf]

/-- Witness for the amended C1: the failing run surfaces the literal store error with a
single model call and a single execution. -/
theorem processUserRequest_execution_failure_witness :
    (processUserRequest staffAgent failingStore "show staff names" "table"
        "daily_worker_summary").result.isFailure = true ∧
    (processUserRequest staffAgent failingStore "show staff names" "table"
        "daily_worker_summary").result.errorOf = some "Unknown identifier WEEK" ∧
    (processUserRequest staffAgent failingStore "show staff names" "table"
        "daily_worker_summary").llmCalls = 1 ∧
    (processUserRequest staffAgent failingStore "show staff names" "table"
        "daily_worker_summary").execTrace = [staffPayload.query] :=
  processUserRequest_execution_failure staffAgent failingStore "show staff names"
    "table" "daily_worker_summary" staffPayload ["staff_name"]
    "Unknown identifier WEEK" (by decide) (by decide) (by decide) rfl (by decide)
    (by decide) (by decide) rfl

/-- Modelled from the spec: the DomainGuard heuristic `isOutOfScope` of spec section 4.2
(block-term lexicon of monetary/payment terms without an overriding attendance-context
term); no such guard exists anywhere in the source — `processUserRequest` contains no
pre-filter at all. -/
def isOutOfScope (msg : String) : Bool :=
  (["salary", "payment", "paid", "wage", "earning"].any
      (fun t => strIncludes (strLower msg) t)) &&
    !(["attendance", "hour", "present", "leave", "work"].any
      (fun t => strIncludes (strLower msg) t))

/-- Claim C2 as stated: an out-of-scope message short-circuits into a terminal failure
with no model invocation and no data-store call. -/
def claimC2 : Prop :=
  ∀ (agent : AgentRunResult) (client : StoreOracle) (msg ct tn : String),
    isOutOfScope msg = true →
    (processUserRequest agent client msg ct tn).result.isFailure = true ∧
    (processUserRequest agent client msg ct tn).llmCalls = 0 ∧
    (processUserRequest agent client msg ct tn).execTrace = []

def okStore : StoreOracle := fun _ => Except.ok []

def freeTextAgent : AgentRunResult := { toolArguments := none, finalOutput := none }

/-- Counterexample to C2: the message `show me salary data` contains the block-term
`salary` and no context term, yet the pipeline invokes the model (and here even
succeeds) instead of short-circuiting. -/
theorem processUserRequest_guard_counterexample : ¬ claimC2 := by
  intro h
  have h2 := h freeTextAgent okStore "show me salary data" "table"
      "daily_worker_summary" (by decide)
  exact absurd h2.2.1 (by decide)

/-- **C2 (amended).** There is no out-of-scope pre-filter: `processUserRequest` invokes
the model exactly once for every request passing the input validations — including
messages containing a block-term with no overriding context term. -/
theorem processUserRequest_always_invokes_model (agent : AgentRunResult)
    (client : StoreOracle) (msg ct tn : String)
    (hm : msg ≠ "") (hc : ct ∈ validCardTypes) (ht : (lookupTable tn).isSome) :
    (processUserRequest agent client msg ct tn).llmCalls = 1 := by
  have hcne : ct ≠ "" := by
    intro hcc; subst hcc; simp [validCardTypes] at hc
  have hguard : (msg == "" || ct == "") = false := by simp [hm, hcne]
  have hcont : validCardTypes.contains ct = true := contains_true_of_mem hc
  obtain ⟨ts, hts⟩ := Option.isSome_iff_exists.mp ht
  unfold processUserRequest
  cases hta : agent.toolArguments with
  | some p =>
      have hgen : generateQuery agent msg ct tn =
          ({ success := true, query := some p.query, error := none,
             explanation := some p.explanation, cardType := p.cardType,
             columns := p.columns, tableName := tn }, 1) := by
        unfold generateQuery
        rw [hguard, hcont, hts, hta]
        rfl
      rw [hgen]
      simp
  | none =>
      have hgen : generateQuery agent msg ct tn =
          ({ success := true, query := some (fallbackQuery agent.finalOutput),
             error := none, explanation := some "Generated query from LLM response",
             cardType := ct, columns := ["*"], tableName := tn }, 1) := by
        unfold generateQuery
        rw [hguard, hcont, hts, hta]
        rfl
      rw [hgen]
      simp

/-- Witness for the amended C2: a message containing the block-term `salary` without
context terms still causes one model invocation. -/
theorem processUserRequest_always_invokes_model_witness :
    isOutOfScope "show me salary data" = true ∧
    (processUserRequest freeTextAgent okStore "show me salary data" "table"
        "daily_worker_summary").llmCalls = 1 :=
  ⟨by decide, processUserRequest_always_invokes_model freeTextAgent okStore
    "show me salary data" "table" "daily_worker_summary"
    (by decide) (by decide) (by decide)⟩

end ZaperCanvas
